import Mathlib

/-!
Verification of the JPyang plugin (`src/pyang/plugins/jpyang.py`) against its
specification.  The Python source is shallowly embedded: statement trees become
an inductive type, pyang's `search_one` lookups become `List.find?`, and a
Python fault (an uncaught `AttributeError` / unbound local) is modelled as
`Option.none` in the result of the embedded function.
-/

/-- A pyang statement: keyword, argument and ordered substatements
(`Statement` objects of the external parser).  The parent back-reference of
pyang statements is passed explicitly where the source reads `stmt.parent`. -/
inductive Stmt where
  | mk : String → String → List Stmt → Stmt

def Stmt.keyword : Stmt → String
  | .mk k _ _ => k

def Stmt.arg : Stmt → String
  | .mk _ a _ => a

def Stmt.substmts : Stmt → List Stmt
  | .mk _ _ s => s

/-- pyang `stmt.search_one(kw)`: the first substatement with the given
keyword, or `none`. -/
def Stmt.search_one (s : Stmt) (kw : String) : Option Stmt :=
  s.substmts.find? (fun c => c.keyword == kw)

/-- pyang `stmt.search_one(kw, arg)`: the first substatement with the given
keyword and argument, or `none`. -/
def Stmt.search_one_arg (s : Stmt) (kw a : String) : Option Stmt :=
  s.substmts.find? (fun c => c.keyword == kw && c.arg == a)

/-- `is_module` (jpyang.py lines 267-269). -/
def is_module (s : Stmt) : Bool :=
  s.keyword == "module" || s.keyword == "submodule"

/-- `is_container` (jpyang.py lines 272-275). -/
def is_container (s : Stmt) (strict : Bool) : Bool :=
  s.keyword == "container" || (!strict && s.keyword == "list")

/-- `in_schema` (jpyang.py lines 278-282). -/
def in_schema (s : Stmt) : Bool :=
  is_container s false || s.keyword == "module" || s.keyword == "leaf"

/-- The `isMandatory` computation of `schema_node` (jpyang.py lines 333-334). -/
def stmt_is_mandatory (s : Stmt) : Bool :=
  match s.search_one "mandatory" with
  | some m => m.arg == "true"
  | none => false

/-- The `isUnique` computation of `schema_node` (jpyang.py lines 335-336). -/
def stmt_is_unique (s : Stmt) : Bool :=
  match s.search_one "unique" with
  | some u => u.arg == "true"
  | none => false

/-- The `isKey` computation of `schema_node` (jpyang.py lines 337-340):
the parent's `key` substatement exists and its argument equals the
statement's argument. -/
def stmt_is_key (s : Stmt) (parent : Option Stmt) : Bool :=
  match parent with
  | some p =>
    match p.search_one "key" with
    | some k => k.arg == s.arg
    | none => false
  | none => false

/-- One record of the XML schema artifact, the content produced by
`schema_node` (jpyang.py lines 321-361): tagpath, namespace, occurrence
bounds (strings, `-1` meaning unbounded) and the space-joined child
arguments. -/
structure SchemaNodeRecord where
  tagpath : String
  ns : String
  min_occurs : String
  max_occurs : String
  children : String
deriving DecidableEq

/-- `schema_node` (jpyang.py lines 321-361).  `parent` is `stmt.parent`.
Bounds: default `min='0'`, `max='-1'`; a module, a key leaf, or a strict
container that is a child of a container/list gets `('1','1')`;
`mandatory=true` then overrides `min` to `'1'`; `unique=true`, or being a
child of a container/list, or being a strict container, then overrides
`max` to `'1'`. -/
def schema_node (stmt : Stmt) (parent : Option Stmt) (tagpath ns : String) :
    SchemaNodeRecord :=
  let isMandatory := stmt_is_mandatory stmt
  let isUnique := stmt_is_unique stmt
  let isKey := stmt_is_key stmt parent
  let childOfContainerOrList :=
    match parent with
    | some p => is_container p false
    | none => false
  let firstRule := is_module stmt || isKey ||
    (childOfContainerOrList && is_container stmt true)
  let minOcc := if isMandatory then "1" else if firstRule then "1" else "0"
  let maxOcc :=
    if isUnique || childOfContainerOrList || is_container stmt true then "1"
    else if firstRule then "1" else "-1"
  { tagpath := tagpath
    ns := ns
    min_occurs := minOcc
    max_occurs := maxOcc
    children :=
      (stmt.substmts.foldl (fun acc ch => acc ++ ch.arg ++ " ") "").dropRight 1 }

/-- Python 2 `str.capitalize`: upper-case the first character, lower-case the
rest (ASCII, C locale--matching `Char.toUpper`/`Char.toLower`). -/
def py_capitalize (s : String) : String :=
  match s.data with
  | [] => ""
  | c :: cs => String.mk (c.toUpper :: cs.map Char.toLower)

/-- `extract_names` (jpyang.py lines 256-264): the capitalized argument with
`.java` appended, and the capitalized argument. -/
def extract_names (arg : String) : String × String :=
  let capitalized := py_capitalize arg
  (capitalized ++ ".java", capitalized)

/-- Python `s.split(' ')` over a character list: split at every single
space, keeping empty fragments (`''.split(' ') == ['']`). -/
def py_split_space_go : List Char → List Char → List String
  | [], acc => [String.mk acc.reverse]
  | c :: cs, acc =>
    if c = ' ' then String.mk acc.reverse :: py_split_space_go cs []
    else py_split_space_go cs (c :: acc)

/-- Python `s.split(' ')`. -/
def py_split_space (s : String) : List String :=
  py_split_space_go s.data []

/-- The per-key type dispatch of `extract_keys` (jpyang.py lines 240-252):
confm type, primitive type, and the number of warnings printed (the
defaulting itself is unconditional; only the warning is gated on the
debug/verbose flags `dv`). -/
def key_type_resolve (typeArg : String) (dv : Bool) : String × String × Nat :=
  if typeArg == "string" then ("com.tailf.confm.xs.String", "String", 0)
  else if typeArg == "uint32" then ("com.tailf.confm.xs.UnsignedInt", "long", 0)
  else ("com.tailf.confm.xs.String", "String", if dv then 1 else 0)

/-- The loop of `extract_keys` (jpyang.py lines 238-252) over the
space-separated key identifiers.  For each identifier the sibling leaf of
that name is looked up and its `type` substatement read; an absent leaf or
type is a Python `AttributeError` fault, modelled as `none`.
`only` accumulates `only_strings`, `ck`/`pk` accumulate `confm_keys` and
`primitive_keys`, `d` counts warnings. -/
def extract_keys_go (stmt : Stmt) (dv : Bool) :
    List String → Bool → List (String × String) → List (String × String) →
    Nat → Option (Bool × List (String × String) × List (String × String) × Nat)
  | [], only, ck, pk, d => some (only, ck, pk, d)
  | a :: rest, only, ck, pk, d =>
    match stmt.search_one_arg "leaf" a with
    | none => none
    | some leafStmt =>
      match leafStmt.search_one "type" with
      | none => none
      | some t =>
        let r := key_type_resolve t.arg dv
        extract_keys_go stmt dv rest (only && (r.2.1 == "String"))
          (ck ++ [(r.1, a)]) (pk ++ [(r.2.1, a)]) (d + r.2.2)

/-- The value returned by `extract_keys`: the `key` statement, the
`only_strings` flag, `confm_keys`, `primitive_keys` (each a list of
(type, identifier) pairs), plus the number of warnings printed. -/
structure ExtractKeysResult where
  key : Stmt
  only_strings : Bool
  confm_keys : List (String × String)
  primitive_keys : List (String × String)
  diags : Nat

/-- `extract_keys` (jpyang.py lines 226-253).  `stmt.search_one('key')`
returning `None` makes the subsequent `key.arg` access fault (`none`). -/
def extract_keys (stmt : Stmt) (dv : Bool) : Option ExtractKeysResult :=
  match stmt.search_one "key" with
  | none => none
  | some key =>
    match extract_keys_go stmt dv (py_split_space key.arg) true [] [] 0 with
    | none => none
    | some (only, ck, pk, d) => some ⟨key, only, ck, pk, d⟩

/-- The leaf/leaf-list type dispatch of `generate_class` (jpyang.py lines
460-482 for `leaf`, 492-517 for `leaf-list`).  `prev` is the current value
of the function-local `type_str` variable (threaded across loop
iterations; initially unbound, i.e. `none`), `dv` the debug/verbose flag.
Returns the `type_str` the access methods are generated with and the
number of warnings printed, or `none` on an `UnboundLocalError` fault:
in the unrecognized-type branch the assignment
`type_str = 'com.tailf.confm.xs.String'` sits inside the
`if ctx.opts.debug or ctx.opts.verbose` suite, so without those flags the
old `type_str` is silently reused, and if there is none the code faults. -/
def generate_class_leaf_type_dispatch (typeArg : String) (prev : Option String)
    (dv : Bool) : Option (String × Nat) :=
  if typeArg == "uint32" then some ("com.tailf.confm.xs.UnsignedInt", 0)
  else if typeArg == "string" then some ("com.tailf.confm.xs.String", 0)
  else if dv then some ("com.tailf.confm.xs.String", 1)
  else
    match prev with
    | some t => some (t, 0)
    | none => none

/-- One constructor emitted for a class, as passed to `constructor`
(jpyang.py lines 646-735): the `mode` argument (0 no arguments, 1 ConfM
arguments, 2 String arguments, 3 Java primitive arguments) and the
`args` list of (type, identifier) pairs. -/
structure ConstructorSpec where
  mode : Nat
  args : List (String × String)
deriving DecidableEq

/-- A constructor with `not args or mode == 0` (jpyang.py line 678) has an
empty Java parameter list: it is the argument-free constructor. -/
def constructor_is_noarg (c : ConstructorSpec) : Bool :=
  c.args.isEmpty || c.mode == 0

/-- The constructors emitted for a `list` statement by `generate_class`
(jpyang.py lines 545-558): mode 0 with no arguments, mode 1 with
`confm_keys`, mode 2 with `primitive_keys`, and mode 3 with
`primitive_keys` only when `only_strings` is false. -/
def list_constructors (stmt : Stmt) (dv : Bool) : Option (List ConstructorSpec) :=
  match extract_keys stmt dv with
  | none => none
  | some r =>
    let base := [ConstructorSpec.mk 0 [], ConstructorSpec.mk 1 r.confm_keys,
      ConstructorSpec.mk 2 r.primitive_keys]
    some (if r.only_strings then base
          else base ++ [ConstructorSpec.mk 3 r.primitive_keys])

mutual

/-- `generate_class` (jpyang.py lines 403-574), reduced to what it writes
and where it faults: returns the names of the `.java` files written (child
classes first, own file last, mirroring the recursion order), or `none` when
the Python code faults (key extraction on a list, a leaf without a `type`
substatement, or an unbound `type_str`). -/
def gen_class_files (dv : Bool) : Stmt → Option (List String)
  | Stmt.mk kw arg subs =>
    match gen_class_subs dv subs none with
    | none => none
    | some (_, fs) =>
      if kw == "list" then
        match extract_keys (Stmt.mk kw arg subs) dv with
        | none => none
        | some _ => some (fs ++ [(extract_names arg).1])
      else some (fs ++ [(extract_names arg).1])

/-- The substatement loop of `generate_class` (jpyang.py lines 422-536):
threads the `type_str` local through the iterations, recurses into `list`
and `container` children (which write their own files), and requires the
lookups the Python code dereferences to succeed. -/
def gen_class_subs (dv : Bool) :
    List Stmt → Option String → Option (Option String × List String)
  | [], ts => some (ts, [])
  | sub :: rest, ts =>
    match
      (if sub.keyword == "list" then
        match gen_class_files dv sub with
        | none => none
        | some cfs =>
          match extract_keys sub dv with
          | none => none
          | some _ => some (ts, cfs)
      else if sub.keyword == "container" then
        match gen_class_files dv sub with
        | none => none
        | some cfs => some (ts, cfs)
      else if sub.keyword == "leaf" || sub.keyword == "leaf-list" then
        match sub.search_one "type" with
        | none => none
        | some t =>
          match generate_class_leaf_type_dispatch t.arg ts dv with
          | none => none
          | some r => some (some r.1, [])
      else some (ts, [])) with
    | none => none
    | some (ts2, fs) =>
      match gen_class_subs dv rest ts2 with
      | none => none
      | some (tsF, fsRest) => some (tsF, fs ++ fsRest)

end

/-- `generate_classes` (jpyang.py lines 364-400): resolves the module
prefix (for a submodule via its `belongs-to` statement), generates one
class per top-level `container`/`list` substatement, then writes the
prefix-named root class file. -/
def generate_classes (m : Stmt) (dv : Bool) : Option (List String) :=
  match
    (if m.keyword == "module" then
      match m.search_one "namespace" with
      | none => none
      | some _ =>
        match m.search_one "prefix" with
        | none => none
        | some p => some p.arg
    else if m.keyword == "submodule" then
      match m.search_one "belongs-to" with
      | none => none
      | some bt =>
        match bt.search_one "prefix" with
        | none => none
        | some p => some p.arg
    else none) with
  | none => none
  | some pArg =>
    match
      (m.substmts.filter
        (fun s => s.keyword == "container" || s.keyword == "list")).foldlM
        (fun acc s =>
          match gen_class_files dv s with
          | none => none
          | some cfs => some (acc ++ cfs)) [] with
    | none => none
    | some fs => some (fs ++ [(extract_names pArg).1])

/-- What `JPyangPlugin.emit` does with one top-level statement (jpyang.py
lines 154-184): whether a `.schema` file was written, the `.java` files
written by `generate_classes`, and whether the
`Warning: no support for submodule` diagnostic was printed (after the
classes were generated). -/
structure EmitModuleResult where
  schema_written : Bool
  class_files : List String
  submodule_warning : Bool

/-- The per-statement body of `JPyangPlugin.emit` (jpyang.py lines
154-184).  A top-level statement that is neither `module` nor `submodule`
raises `EmitError` via `self.fatal()`; schema generation dereferences the
`namespace` and `prefix` substatements (faulting when absent, e.g. for a
submodule, which has neither). -/
def emit_module (m : Stmt) (no_schema : Bool) (dv : Bool) :
    Option EmitModuleResult :=
  if m.keyword == "module" || m.keyword == "submodule" then
    match
      (if no_schema then some false
       else
         match m.search_one "namespace" with
         | none => none
         | some _ =>
           match m.search_one "prefix" with
           | none => none
           | some _ => some true) with
    | none => none
    | some sw =>
      match generate_classes m dv with
      | none => none
      | some fs =>
        some ⟨sw, fs, m.keyword == "submodule"⟩
  else none

/-- The revision expression of `gen_package` (jpyang.py line 1340):
`ctx.revs[module_arg][-1:][:0]`, where `revs` is the revision list of the
module.  Python `l[-1:]` is `drop (length - 1)`, `[:0]` is `take 0`. -/
def gen_package_rev (revs : List String) : List String :=
  (revs.drop (revs.length - 1)).take 0

/-- The per-module provenance fragment of `gen_package` (jpyang.py lines
1339-1343): when the sliced revision list is empty the string `'unknown'`
is substituted; a non-empty list would make the string concatenation on
line 1343 fault. -/
def gen_package_entry (module_arg : String) (revs : List String) :
    Option String :=
  let rev := gen_package_rev revs
  if rev.isEmpty then
    some ("module \"" ++ module_arg ++ "\" (rev \"" ++ "unknown" ++ "\"), ")
  else none

/-! Concrete statement trees used as inputs for witnesses and
counterexamples. -/

/-- A `mandatory=true` leaf of type `string`. -/
def mand_leaf_example : Stmt :=
  Stmt.mk "leaf" "m" [Stmt.mk "mandatory" "true" [], Stmt.mk "type" "string" []]

/-- A list with key `k` and a mandatory non-key leaf `m`. -/
def list_with_mand_example : Stmt := Stmt.mk "list" "l"
  [Stmt.mk "key" "k" [],
   Stmt.mk "leaf" "k" [Stmt.mk "type" "string" []],
   mand_leaf_example]

/-- A list with a single key leaf `a` of type `string`. -/
def string_key_list_example : Stmt := Stmt.mk "list" "l"
  [Stmt.mk "key" "a" [], Stmt.mk "leaf" "a" [Stmt.mk "type" "string" []]]

/-- A container holding a list. -/
def container_with_list_example : Stmt :=
  Stmt.mk "container" "c" [string_key_list_example]

/-- A submodule with the usual `belongs-to` statement carrying the
parent module prefix `p`. -/
def submodule_example : Stmt := Stmt.mk "submodule" "sub"
  [Stmt.mk "belongs-to" "m" [Stmt.mk "prefix" "p" []]]

/-- A list whose `key` argument names `a` but whose only leaf is `b`. -/
def missing_key_leaf_list_example : Stmt := Stmt.mk "list" "l"
  [Stmt.mk "key" "a" [], Stmt.mk "leaf" "b" [Stmt.mk "type" "string" []]]

/-- A list with a `string` key and a `uint32` key. -/
def mixed_key_list_example : Stmt := Stmt.mk "list" "l"
  [Stmt.mk "key" "a b" [],
   Stmt.mk "leaf" "a" [Stmt.mk "type" "string" []],
   Stmt.mk "leaf" "b" [Stmt.mk "type" "uint32" []]]

/-- A list with key argument `a b c` and the three corresponding leaves. -/
def three_key_list_example : Stmt := Stmt.mk "list" "l"
  [Stmt.mk "key" "a b c" [],
   Stmt.mk "leaf" "a" [Stmt.mk "type" "string" []],
   Stmt.mk "leaf" "b" [Stmt.mk "type" "uint32" []],
   Stmt.mk "leaf" "c" [Stmt.mk "type" "string" []]]

/-- The value `extract_keys` returns on `three_key_list_example`. -/
def three_key_result_example : ExtractKeysResult :=
  ⟨Stmt.mk "key" "a b c" [], false,
    [("com.tailf.confm.xs.String", "a"), ("com.tailf.confm.xs.UnsignedInt", "b"),
      ("com.tailf.confm.xs.String", "c")],
    [("String", "a"), ("long", "b"), ("String", "c")], 0⟩

/-! Helper lemmas. -/

/-- Reading back the code point of a character built from a valid code
point. -/
theorem char_toNat_ofNat (n : Nat) (h : n.isValidChar) :
    (Char.ofNat n).toNat = n := by
  rw [Char.ofNat, dif_pos h]
  rfl

/-- Unfolding of `Char.toUpper`. -/
theorem char_toUpper_eq (c : Char) :
    c.toUpper =
      if 97 ≤ c.toNat ∧ c.toNat ≤ 122 then Char.ofNat (c.toNat - 32) else c :=
  rfl

/-- Unfolding of `Char.toLower`. -/
theorem char_toLower_eq (c : Char) :
    c.toLower =
      if 65 ≤ c.toNat ∧ c.toNat ≤ 90 then Char.ofNat (c.toNat + 32) else c :=
  rfl

/-- `Char.toUpper` is idempotent. -/
theorem char_toUpper_toUpper (c : Char) : c.toUpper.toUpper = c.toUpper := by
  rw [char_toUpper_eq c, char_toUpper_eq]
  by_cases h : 97 ≤ c.toNat ∧ c.toNat ≤ 122
  · rw [if_pos h]
    have hv : (c.toNat - 32).isValidChar := Or.inl (by omega)
    rw [char_toNat_ofNat _ hv, if_neg (by omega)]
  · rw [if_neg h, if_neg h]

/-- `Char.toLower` is idempotent. -/
theorem char_toLower_toLower (c : Char) : c.toLower.toLower = c.toLower := by
  rw [char_toLower_eq c, char_toLower_eq]
  by_cases h : 65 ≤ c.toNat ∧ c.toNat ≤ 90
  · rw [if_pos h]
    have hv : (c.toNat + 32).isValidChar := Or.inl (by omega)
    rw [char_toNat_ofNat _ hv, if_neg (by omega)]
  · rw [if_neg h, if_neg h]

/-- Python `str.capitalize` is idempotent. -/
theorem py_capitalize_idem (s : String) :
    py_capitalize (py_capitalize s) = py_capitalize s := by
  cases s with
  | mk data =>
    cases data with
    | nil => rfl
    | cons c cs =>
      show py_capitalize (String.mk (c.toUpper :: cs.map Char.toLower)) = _
      unfold py_capitalize
      simp only [char_toUpper_toUpper, List.map_map]
      congr 2
      · exact List.map_congr_left (fun a _ => char_toLower_toLower a)

/-- Invariant of the `extract_keys` loop: it appends one `confm_keys` and
one `primitive_keys` entry per identifier, in order, and `only_strings`
is the conjunction of the incoming flag with `primitive type = String`
over the newly appended entries. -/
theorem extract_keys_go_spec (stmt : Stmt) (dv : Bool) :
    ∀ (args : List String) (only : Bool) (ck pk : List (String × String))
      (d : Nat) (o : Bool) (ck' pk' : List (String × String)) (d' : Nat),
      extract_keys_go stmt dv args only ck pk d = some (o, ck', pk', d') →
      ∃ nck npk : List (String × String),
        ck' = ck ++ nck ∧ pk' = pk ++ npk ∧
        nck.map Prod.snd = args ∧ npk.map Prod.snd = args ∧
        o = (only && npk.all (fun p => p.1 == "String")) := by
  intro args
  induction args with
  | nil =>
    intro only ck pk d o ck' pk' d' h
    simp only [extract_keys_go, Option.some.injEq, Prod.mk.injEq] at h
    obtain ⟨h1, h2, h3, h4⟩ := h
    exact ⟨[], [], by simp [h2], by simp [h3], rfl, rfl, by simp [h1]⟩
  | cons a rest ih =>
    intro only ck pk d o ck' pk' d' h
    rw [extract_keys_go] at h
    cases hl : stmt.search_one_arg "leaf" a with
    | none =>
      simp only [hl] at h
      exact Option.noConfusion h
    | some leafStmt =>
      simp only [hl] at h
      cases ht : leafStmt.search_one "type" with
      | none =>
        simp only [ht] at h
        exact Option.noConfusion h
      | some t =>
        simp only [ht] at h
        obtain ⟨nck, npk, e1, e2, e3, e4, e5⟩ := ih _ _ _ _ _ _ _ _ h
        refine ⟨((key_type_resolve t.arg dv).1, a) :: nck,
          ((key_type_resolve t.arg dv).2.1, a) :: npk, ?_, ?_, ?_, ?_, ?_⟩
        · simpa using e1
        · simpa using e2
        · simp [e3]
        · simp [e4]
        · rw [e5]
          simp [Bool.and_assoc]

/-- Dissection of a successful `extract_keys` call: the key statement is
the one found by `search_one`, both key lists carry exactly the split
identifiers in textual order, and `only_strings` holds iff every
resolved primitive type is `String`. -/
theorem extract_keys_spec (stmt : Stmt) (dv : Bool) (r : ExtractKeysResult)
    (hr : extract_keys stmt dv = some r) :
    stmt.search_one "key" = some r.key ∧
    r.confm_keys.map Prod.snd = py_split_space r.key.arg ∧
    r.primitive_keys.map Prod.snd = py_split_space r.key.arg ∧
    (r.only_strings = true ↔ ∀ p ∈ r.primitive_keys, p.1 = "String") := by
  unfold extract_keys at hr
  cases hk : stmt.search_one "key" with
  | none => rw [hk] at hr; exact Option.noConfusion hr
  | some key =>
    simp only [hk] at hr
    cases hg : extract_keys_go stmt dv (py_split_space key.arg) true [] [] 0 with
    | none =>
      simp only [hg] at hr
      exact Option.noConfusion hr
    | some res =>
      obtain ⟨o, ck, pk, d⟩ := res
      simp only [hg, Option.some.injEq] at hr
      subst hr
      obtain ⟨nck, npk, e1, e2, e3, e4, e5⟩ :=
        extract_keys_go_spec stmt dv _ _ _ _ _ _ _ _ _ hg
      simp only [List.nil_append] at e1 e2
      subst e1
      subst e2
      refine ⟨rfl, e3, e4, ?_⟩
      simp only [Bool.true_and] at e5
      rw [e5]
      simp [List.all_eq_true]

/-- `generate_classes` always writes at least the prefix-named root class
file. -/
theorem generate_classes_ne_nil (m : Stmt) (dv : Bool) (fs : List String)
    (hg : generate_classes m dv = some fs) : fs ≠ [] := by
  unfold generate_classes at hg
  split at hg
  · exact Option.noConfusion hg
  · split at hg
    · exact Option.noConfusion hg
    · injection hg with hg
      subst hg
      simp

/-! The claims. -/

/-- Claim C1, counterexample: for the mandatory non-key leaf `m` directly
under the list `l`, `schema_node` emits `min_occurs = '1'` but
`max_occurs = '1'`, not the unbounded `'-1'` the claim states (the
child-of-container-or-list test on jpyang.py line 349 looks at the parent
only); and a list directly under a container also gets
`max_occurs = '1'`, so a list child's `max_occurs` is forced to `'1'` as
well. -/
theorem c1_counterexample :
    (stmt_is_mandatory mand_leaf_example = true ∧
     stmt_is_key mand_leaf_example (some list_with_mand_example) = false ∧
     list_with_mand_example.keyword = "list" ∧
     (schema_node mand_leaf_example (some list_with_mand_example)
       "/l/m/" "ns").min_occurs = "1" ∧
     (schema_node mand_leaf_example (some list_with_mand_example)
       "/l/m/" "ns").max_occurs = "1" ∧
     (schema_node mand_leaf_example (some list_with_mand_example)
       "/l/m/" "ns").max_occurs ≠ "-1") ∧
    (string_key_list_example.keyword = "list" ∧
     container_with_list_example.keyword = "container" ∧
     (schema_node string_key_list_example (some container_with_list_example)
       "/c/l/" "ns").max_occurs = "1") := by
  refine ⟨⟨rfl, rfl, rfl, rfl, rfl, ?_⟩, rfl, rfl, rfl⟩
  decide

/-- Claim C1, amended: every statement whose parent is a container or a
list -- a list itself included -- has `max_occurs` forced to `'1'` by
`schema_node`, and if it is additionally `mandatory=true` its
`min_occurs` is `'1'`. -/
theorem c1_schema_node_child_bounds (stmt parent : Stmt) (tagpath ns : String)
    (hpar : is_container parent false = true) :
    (schema_node stmt (some parent) tagpath ns).max_occurs = "1" ∧
    (stmt_is_mandatory stmt = true →
      (schema_node stmt (some parent) tagpath ns).min_occurs = "1") := by
  unfold schema_node
  constructor
  · simp [hpar]
  · intro hm
    simp [hm]

/-- Claim C1, witness for the amended theorem at the mandatory leaf under
a list. -/
theorem c1_schema_node_child_bounds_witness :
    (schema_node mand_leaf_example (some list_with_mand_example)
      "/l/m/" "ns").max_occurs = "1" ∧
    (schema_node mand_leaf_example (some list_with_mand_example)
      "/l/m/" "ns").min_occurs = "1" := by
  have h := c1_schema_node_child_bounds mand_leaf_example
    list_with_mand_example "/l/m/" "ns" rfl
  exact ⟨h.1, h.2 rfl⟩

/-- Claim C2, counterexample: for a top-level submodule (with schema
generation disabled so that the namespace dereference cannot fault
first), `emit` prints the submodule warning but still compiles it --
`generate_classes` writes the root class file `P.java`, so class files
are generated, contradicting the claimed silent skip. -/
theorem c2_counterexample :
    submodule_example.keyword = "submodule" ∧
    emit_module submodule_example true false = some ⟨false, ["P.java"], true⟩ ∧
    (["P.java"] : List String) ≠ [] := by
  refine ⟨rfl, rfl, ?_⟩
  decide

/-- Claim C2, amended: a top-level submodule is reported with a
diagnostic but is not skipped: whenever `generate_classes` succeeds on it
(schema generation disabled here), `emit` generates its Java class files
-- a non-empty set, at least the prefix-named root class -- and sets the
submodule warning. -/
theorem c2_submodule_not_skipped (m : Stmt) (dv : Bool) (fs : List String)
    (hk : m.keyword = "submodule") (hg : generate_classes m dv = some fs) :
    emit_module m true dv = some ⟨false, fs, true⟩ ∧ fs ≠ [] := by
  refine ⟨?_, generate_classes_ne_nil m dv fs hg⟩
  unfold emit_module
  rw [hk]
  simp [hg]

/-- Claim C2, witness for the amended theorem at the concrete submodule. -/
theorem c2_submodule_not_skipped_witness :
    emit_module submodule_example true false = some ⟨false, ["P.java"], true⟩ ∧
    (["P.java"] : List String) ≠ [] :=
  c2_submodule_not_skipped submodule_example false ["P.java"] rfl rfl

/-- Claim C3, counterexample: for a list whose key argument `a` has no
sibling leaf `a`, `extract_keys` faults (`none`, the Python
`AttributeError` on a `None` lookup result) -- it does not return any
structured `MissingKeyDefinition` error value; no such error exists
anywhere in the code. -/
theorem c3_counterexample :
    (missing_key_leaf_list_example.search_one "key").map Stmt.arg = some "a" ∧
    missing_key_leaf_list_example.search_one_arg "leaf" "a" = none ∧
    extract_keys missing_key_leaf_list_example false = none ∧
    extract_keys missing_key_leaf_list_example true = none :=
  ⟨rfl, rfl, rfl, rfl⟩

/-- Claim C3, amended: whenever a list's key argument names an identifier
with no corresponding sibling leaf, `extract_keys` aborts with an
unhandled attribute-access fault (modelled as `none`) rather than a
structured `MissingKeyDefinition` error. -/
theorem c3_missing_key_leaf_faults (stmt key : Stmt) (dv : Bool) (a : String)
    (hk : stmt.search_one "key" = some key)
    (ha : a ∈ py_split_space key.arg)
    (hleaf : stmt.search_one_arg "leaf" a = none) :
    extract_keys stmt dv = none := by
  unfold extract_keys
  simp only [hk]
  suffices h : ∀ (args : List String) (only : Bool)
      (ck pk : List (String × String)) (d : Nat), a ∈ args →
      extract_keys_go stmt dv args only ck pk d = none by
    rw [h _ _ _ _ _ ha]
  intro args
  induction args with
  | nil =>
    intro _ _ _ _ hmem
    exact absurd hmem (List.not_mem_nil a)
  | cons b rest ih =>
    intro only ck pk d hmem
    rw [extract_keys_go]
    by_cases hab : b = a
    · subst hab
      simp only [hleaf]
    · cases hl : stmt.search_one_arg "leaf" b with
      | none => simp only [hl]
      | some leafStmt =>
        simp only [hl]
        cases ht : leafStmt.search_one "type" with
        | none => simp only [ht]
        | some t =>
          simp only [ht]
          have hmem2 : a ∈ rest := by
            cases hmem with
            | head => exact absurd rfl hab
            | tail _ h2 => exact h2
          exact ih _ _ _ _ hmem2

/-- Claim C3, witness for the amended theorem at the concrete list. -/
theorem c3_witness :
    (missing_key_leaf_list_example.search_one "key").map Stmt.arg = some "a" ∧
    extract_keys missing_key_leaf_list_example false = none :=
  ⟨rfl, c3_missing_key_leaf_faults missing_key_leaf_list_example
    (Stmt.mk "key" "a" []) false "a" rfl (by decide) rfl⟩

/-- Claim C4: for a list whose named key leaves are all present,
`only_strings` is true iff every resolved primitive representation is the
`String` type, and the list class gets exactly 3 constructors when the
flag is true and exactly 4 when it is false. -/
theorem c4_only_strings_iff_and_count (stmt : Stmt) (dv : Bool)
    (r : ExtractKeysResult) (cs : List ConstructorSpec)
    (hr : extract_keys stmt dv = some r)
    (hc : list_constructors stmt dv = some cs) :
    (r.only_strings = true ↔ ∀ p ∈ r.primitive_keys, p.1 = "String") ∧
    cs.length = if r.only_strings then 3 else 4 := by
  refine ⟨(extract_keys_spec stmt dv r hr).2.2.2, ?_⟩
  unfold list_constructors at hc
  rw [hr] at hc
  simp only [Option.some.injEq] at hc
  subst hc
  cases h : r.only_strings <;> simp [h]

/-- Claim C4, witness: the list with keys `a` (string) and `b` (uint32)
has `only_strings = false` and 4 constructors. -/
theorem c4_witness :
    ((false : Bool) = true ↔
      ∀ p ∈ ([("String", "a"), ("long", "b")] : List (String × String)),
        p.1 = "String") ∧
    (4 : Nat) = if (false : Bool) then 3 else 4 :=
  c4_only_strings_iff_and_count mixed_key_list_example false
    ⟨Stmt.mk "key" "a b" [], false,
      [("com.tailf.confm.xs.String", "a"), ("com.tailf.confm.xs.UnsignedInt", "b")],
      [("String", "a"), ("long", "b")], 0⟩
    [ConstructorSpec.mk 0 [],
     ConstructorSpec.mk 1 [("com.tailf.confm.xs.String", "a"),
       ("com.tailf.confm.xs.UnsignedInt", "b")],
     ConstructorSpec.mk 2 [("String", "a"), ("long", "b")],
     ConstructorSpec.mk 3 [("String", "a"), ("long", "b")]]
    rfl rfl

/-- Claim C5, counterexample: the all-string-keys list gets the
constructors of modes 0, 1 and 2, and the mode-0 constructor (emitted
first, jpyang.py line 547, with the default empty argument list) is
argument-free -- contradicting the claim that no emitted constructor is
argument-free. -/
theorem c5_counterexample :
    list_constructors string_key_list_example false =
      some [ConstructorSpec.mk 0 [],
        ConstructorSpec.mk 1 [("com.tailf.confm.xs.String", "a")],
        ConstructorSpec.mk 2 [("String", "a")]] ∧
    constructor_is_noarg (ConstructorSpec.mk 0 []) = true ∧
    ([ConstructorSpec.mk 0 [],
      ConstructorSpec.mk 1 [("com.tailf.confm.xs.String", "a")],
      ConstructorSpec.mk 2 [("String", "a")]].any constructor_is_noarg) = true :=
  ⟨rfl, rfl, rfl⟩

/-- Claim C5, amended: the constructors emitted for a list are exactly an
argument-free one (mode 0) followed by the wrapped-key (mode 1) and
string-key (mode 2) variants over the extracted keys, plus the
primitive-key variant (mode 3) exactly when not all keys are
string-typed. -/
theorem c5_list_constructor_shape (stmt : Stmt) (dv : Bool)
    (cs : List ConstructorSpec)
    (hc : list_constructors stmt dv = some cs) :
    ∃ r : ExtractKeysResult, extract_keys stmt dv = some r ∧
      cs = ConstructorSpec.mk 0 [] :: ConstructorSpec.mk 1 r.confm_keys ::
        ConstructorSpec.mk 2 r.primitive_keys ::
        (if r.only_strings then []
         else [ConstructorSpec.mk 3 r.primitive_keys]) ∧
      constructor_is_noarg (ConstructorSpec.mk 0 []) = true := by
  unfold list_constructors at hc
  cases hr : extract_keys stmt dv with
  | none =>
    rw [hr] at hc
    exact Option.noConfusion hc
  | some r =>
    simp only [hr, Option.some.injEq] at hc
    subst hc
    refine ⟨r, rfl, ?_, rfl⟩
    cases r.only_strings <;> simp

/-- Claim C5, witness for the amended theorem at the all-string-keys
list. -/
theorem c5_witness :
    ∃ r : ExtractKeysResult,
      extract_keys string_key_list_example false = some r ∧
      [ConstructorSpec.mk 0 [],
        ConstructorSpec.mk 1 [("com.tailf.confm.xs.String", "a")],
        ConstructorSpec.mk 2 [("String", "a")]] =
        ConstructorSpec.mk 0 [] :: ConstructorSpec.mk 1 r.confm_keys ::
          ConstructorSpec.mk 2 r.primitive_keys ::
          (if r.only_strings then []
           else [ConstructorSpec.mk 3 r.primitive_keys]) ∧
      constructor_is_noarg (ConstructorSpec.mk 0 []) = true :=
  c5_list_constructor_shape string_key_list_example false _ rfl

/-- Claim C6: the identifiers in both extracted key lists are exactly the
space-split of the key argument, in its textual order, never reordered or
deduplicated. -/
theorem c6_key_order (stmt : Stmt) (dv : Bool) (r : ExtractKeysResult)
    (hr : extract_keys stmt dv = some r) :
    r.confm_keys.map Prod.snd = py_split_space r.key.arg ∧
    r.primitive_keys.map Prod.snd = py_split_space r.key.arg :=
  ⟨(extract_keys_spec stmt dv r hr).2.1, (extract_keys_spec stmt dv r hr).2.2.1⟩

/-- Claim C6, witness at the list with key argument `a b c`. -/
theorem c6_witness :
    three_key_result_example.confm_keys.map Prod.snd =
      py_split_space three_key_result_example.key.arg ∧
    three_key_result_example.primitive_keys.map Prod.snd =
      py_split_space three_key_result_example.key.arg ∧
    py_split_space three_key_result_example.key.arg = ["a", "b", "c"] :=
  ⟨(c6_key_order three_key_list_example false three_key_result_example rfl).1,
   (c6_key_order three_key_list_example false three_key_result_example rfl).2,
   rfl⟩

/-- Claim C7, counterexample: for an unrecognized type (`decimal64`) with
the debug/verbose flags off, the `generate_class` type dispatch faults
(no diagnostic, no string-representation accessors), and with a stale
`type_str` left by an earlier sibling it silently reuses that
(possibly non-string) representation with zero diagnostics --
contradicting flag-independence. -/
theorem c7_counterexample :
    generate_class_leaf_type_dispatch "decimal64" none false = none ∧
    generate_class_leaf_type_dispatch "decimal64" none false ≠
      some ("com.tailf.confm.xs.String", 1) ∧
    generate_class_leaf_type_dispatch "decimal64"
      (some "com.tailf.confm.xs.UnsignedInt") false =
      some ("com.tailf.confm.xs.UnsignedInt", 0) := by
  refine ⟨rfl, ?_, rfl⟩
  decide

/-- Claim C7, amended: for a leaf or leaf-list whose type name is neither
`string` nor `uint32`, the accessors use the string representation with
exactly one diagnostic only when the debug or verbose flag is set; with
both flags off the dispatch faults when no earlier `type_str` exists, and
otherwise reuses the earlier representation with zero diagnostics. -/
theorem c7_unrecognized_type_fallback (typeArg t : String) (prev : Option String)
    (h1 : (typeArg == "uint32") = false) (h2 : (typeArg == "string") = false) :
    generate_class_leaf_type_dispatch typeArg prev true =
      some ("com.tailf.confm.xs.String", 1) ∧
    generate_class_leaf_type_dispatch typeArg none false = none ∧
    generate_class_leaf_type_dispatch typeArg (some t) false = some (t, 0) := by
  unfold generate_class_leaf_type_dispatch
  simp [h1, h2]

/-- Claim C7, witness for the amended theorem at type `decimal64`. -/
theorem c7_witness :
    generate_class_leaf_type_dispatch "decimal64" none true =
      some ("com.tailf.confm.xs.String", 1) ∧
    generate_class_leaf_type_dispatch "decimal64" none false = none ∧
    generate_class_leaf_type_dispatch "decimal64"
      (some "com.tailf.confm.xs.UnsignedInt") false =
      some ("com.tailf.confm.xs.UnsignedInt", 0) :=
  c7_unrecognized_type_fallback "decimal64" "com.tailf.confm.xs.UnsignedInt"
    none rfl rfl

/-- Claim C8: the class-name derivation `extract_names` is a pure function
of its argument and idempotent: applied to its own class-name result it
returns the same filename and class name. -/
theorem c8_extract_names_idem (s : String) :
    extract_names (extract_names s).2 = extract_names s := by
  unfold extract_names
  simp only [py_capitalize_idem]

/-- Claim C9: `extract_keys` on a statement with no `key` substatement
faults (the `key.arg` attribute access on the absent `search_one` result),
returning no error value or diagnostic -- modelled as `none`. -/
theorem c9_extract_keys_requires_key (stmt : Stmt) (dv : Bool)
    (h : stmt.search_one "key" = none) :
    extract_keys stmt dv = none := by
  unfold extract_keys
  rw [h]

/-- Claim C9, witness at a container with no `key` substatement. -/
theorem c9_witness :
    (Stmt.mk "container" "c" [Stmt.mk "leaf" "x" []]).search_one "key" = none ∧
    extract_keys (Stmt.mk "container" "c" [Stmt.mk "leaf" "x" []]) false = none :=
  ⟨rfl, c9_extract_keys_requires_key _ false rfl⟩

/-- Claim C10: the revision expression of `gen_package` always evaluates
to the empty sequence, so the package documentation reports every
module's revision as `unknown`, for every revision list. -/
theorem c10_revision_always_unknown (module_arg : String) (revs : List String) :
    gen_package_rev revs = [] ∧
    gen_package_entry module_arg revs =
      some ("module \"" ++ module_arg ++ "\" (rev \"" ++ "unknown" ++ "\"), ") := by
  constructor
  · simp [gen_package_rev]
  · simp [gen_package_entry, gen_package_rev]
